import Mathlib

/-!
Verification development for `torch/_guards.py`: the guard bookkeeping core of
a speculative tracing compiler.  The Python module is shallowly embedded below:

* `GuardSource` is the 7-variant enum with its `select` routing
  (`raise NotImplementedError` becomes `Except.error`).
* `Guard` is the dataclass.  Python function objects (`create_fn`), guarded
  classes and weak references are modelled by identity tokens (`Nat`), matching
  the reference-identity comparisons the Python code performs on them.
  `Guard.pyEq` is the dataclass-generated `__eq__` (field-by-field over all
  eight fields); `Guard.pyHash` is the explicitly defined `__hash__`, modelled
  by the tuple it hashes (Python's `hash` is a deterministic function of that
  tuple, so equal tuples give equal hashes).
* `Guard.set_export_info` returns the mutated guard together with an optional
  raised `AssertionError` message; mutations performed before a failing
  assert are kept, as in Python.
* Python `set` objects are mutable heap objects aliased by reference, which is
  essential to `GuardsContext.copy_graphstate` / `restore_graphstate`; a small
  heap (`GuardHeap`) maps object identities to set contents, `GuardsContext`
  and `GuardsCheckpointState` hold identities into it.
* The process-global `_CURRENT_TRACING_CONTEXT` slot and the per-context
  `frame_summary_stack` lists are gathered in `TCWorld`; the context managers
  `tracing` and `TracingContext.current_frame` become world transformers that
  take the enclosed body as a function (the body may itself raise, modelling
  the `try`/`finally` exit paths).
-/

set_option autoImplicit false

/-- The `GuardSource` enum from `torch/_guards.py` (enum members LOCAL = 0,
GLOBAL = 1, LOCAL_NN_MODULE = 2, GLOBAL_NN_MODULE = 3, CONSTANT = 4,
RANDOM_VALUE = 5, SHAPE_ENV = 6). -/
inductive GuardSource where
  | LOCAL
  | GLOBAL
  | LOCAL_NN_MODULE
  | GLOBAL_NN_MODULE
  | CONSTANT
  | RANDOM_VALUE
  | SHAPE_ENV
deriving DecidableEq

/-- The numeric `value` of each enum member. -/
def GuardSource.value : GuardSource → Nat
  | .LOCAL => 0
  | .GLOBAL => 1
  | .LOCAL_NN_MODULE => 2
  | .GLOBAL_NN_MODULE => 3
  | .CONSTANT => 4
  | .RANDOM_VALUE => 5
  | .SHAPE_ENV => 6

/-- Python `str(self)` for an enum member, used in the NotImplementedError
message of `select`. -/
def GuardSource.pyStr : GuardSource → String
  | .LOCAL => "GuardSource.LOCAL"
  | .GLOBAL => "GuardSource.GLOBAL"
  | .LOCAL_NN_MODULE => "GuardSource.LOCAL_NN_MODULE"
  | .GLOBAL_NN_MODULE => "GuardSource.GLOBAL_NN_MODULE"
  | .CONSTANT => "GuardSource.CONSTANT"
  | .RANDOM_VALUE => "GuardSource.RANDOM_VALUE"
  | .SHAPE_ENV => "GuardSource.SHAPE_ENV"

/-- `GuardSource.select(self, locals_, globals_)`: returns `locals_` if `self`
is one of LOCAL, LOCAL_NN_MODULE, SHAPE_ENV, RANDOM_VALUE; returns `globals_`
if `self` is GLOBAL or GLOBAL_NN_MODULE; otherwise
`raise NotImplementedError(str(self))` (modelled as `Except.error` carrying
`str(self)`). -/
def GuardSource.select {α : Type} (s : GuardSource) (locals_ globals_ : α) :
    Except String α :=
  if s = .LOCAL ∨ s = .LOCAL_NN_MODULE ∨ s = .SHAPE_ENV ∨ s = .RANDOM_VALUE then
    .ok locals_
  else if s = .GLOBAL ∨ s = .GLOBAL_NN_MODULE then
    .ok globals_
  else
    .error s.pyStr

/-- `GuardSource.is_nn_module`. -/
def GuardSource.is_nn_module (s : GuardSource) : Bool :=
  decide (s = .GLOBAL_NN_MODULE ∨ s = .LOCAL_NN_MODULE)

/-- `GuardSource.is_local`. -/
def GuardSource.is_local (s : GuardSource) : Bool :=
  decide (s = .LOCAL ∨ s = .LOCAL_NN_MODULE)

/-- The `Guard` dataclass.  `create_fn` is a Python function object compared
and hashed by reference identity (`id(self.create_fn)`); it is modelled by an
identity token.  `guarded_class_weakref` (a class object) and `obj_weakref`
(a weak reference) are likewise modelled by optional identity tokens;
`guard_types` and `code_list` are `Optional[List[str]]`. -/
structure Guard where
  name : String
  source : GuardSource
  create_fn : Nat
  is_volatile : Bool := false
  guard_types : Option (List String) := none
  code_list : Option (List String) := none
  obj_weakref : Option Nat := none
  guarded_class_weakref : Option Nat := none
deriving DecidableEq

/-- The explicitly defined `Guard.__hash__`:
`hash((self.name, self.source, id(self.create_fn)))`.  Python `hash` is a
deterministic function of this tuple, so the hash is modelled by the tuple
itself: equal tuples mean equal Python hashes. -/
def Guard.pyHash (g : Guard) : String × GuardSource × Nat :=
  (g.name, g.source, g.create_fn)

/-- The dataclass-generated `Guard.__eq__` (the `@dataclasses.dataclass`
decorator is used with its default `eq=True`, and defining `__hash__`
explicitly in the class body does not suppress the generated `__eq__`):
it compares the tuple of ALL eight declared fields. -/
def Guard.pyEq (g1 g2 : Guard) : Bool :=
  decide (g1.name = g2.name) && decide (g1.source = g2.source) &&
  decide (g1.create_fn = g2.create_fn) && decide (g1.is_volatile = g2.is_volatile) &&
  decide (g1.guard_types = g2.guard_types) && decide (g1.code_list = g2.code_list) &&
  decide (g1.obj_weakref = g2.obj_weakref) &&
  decide (g1.guarded_class_weakref = g2.guarded_class_weakref)

/-- `Guard.is_nn_module`. -/
def Guard.guard_is_nn_module (g : Guard) : Bool :=
  g.source.is_nn_module

/-- `Guard.is_local`. -/
def Guard.guard_is_local (g : Guard) : Bool :=
  g.source.is_local

/-- Python truthiness helper for `Optional[List[str]]` fields: `not x` is true
for both `None` and the empty list, so the list contents an operation starts
from are `[]` in those cases and the stored list otherwise. -/
def pyListOrEmpty {α : Type} : Option (List α) → List α
  | none => []
  | some l => l

/-- `Guard.set_export_info(self, guard_type, guarded_class, code_list,
obj_weakref)`.  Returns the guard object as mutated by the call, together with
`none` on success or `some msg` when one of the two `assert` statements raises
`AssertionError(msg)`.  Mutations performed before a failing assert are kept
(Python leaves them in place), and execution stops at the failing assert. -/
def Guard.set_export_info (g : Guard) (guard_type : String)
    (guarded_class : Option Nat) (code_list : List String)
    (obj_weakref : Option Nat) : Guard × Option String :=
  -- `if not self.guard_types: self.guard_types = list()` followed by
  -- `self.guard_types.append(guard_type)`
  let gts : List String :=
    match g.guard_types with
    | none => []
    | some [] => []
    | some l => l
  let g1 : Guard := { g with guard_types := some (gts ++ [guard_type]) }
  -- `assert self.guarded_class_weakref in (guarded_class, None)`
  if g1.guarded_class_weakref = guarded_class ∨ g1.guarded_class_weakref = none then
    let g2 : Guard := { g1 with guarded_class_weakref := guarded_class }
    -- `if not self.code_list: self.code_list = code_list`
    -- `else: self.code_list.extend(code_list)`
    let g3 : Guard := { g2 with code_list :=
      match g2.code_list with
      | none => some code_list
      | some [] => some code_list
      | some l => some (l ++ code_list) }
    -- `assert self.obj_weakref in (obj_weakref, None)`
    if g3.obj_weakref = obj_weakref ∨ g3.obj_weakref = none then
      ({ g3 with obj_weakref := obj_weakref }, none)
    else
      (g3, some "Guarded object must be identical, or None")
  else
    (g1, some "Guarded class id must be identical, or None")

/-- `GuardEnvExpr` variant family; its only subclass in the module is
`DuplicateInputs(input_source_a, input_source_b)` (sources modelled by
identity tokens). -/
inductive GuardEnvExpr where
  | DuplicateInputs (input_source_a : Nat) (input_source_b : Nat)
deriving DecidableEq

/-- Pointwise update of a heap map, used to model mutation of / allocation at
one Python object identity. -/
def updSet (m : Nat → Finset Guard) (k : Nat) (v : Finset Guard) :
    Nat → Finset Guard :=
  fun j => if j = k then v else m j

/-- A heap of Python `set` objects holding `Guard`s: `data` maps an object
identity to the set contents, `next` is the next fresh identity (every live
set identity is `< next`).  Python sets deduplicate with `__hash__` plus
`__eq__`, and the dataclass `__eq__` of `Guard` is full structural equality,
so the contents are a `Finset Guard`. -/
structure GuardHeap where
  data : Nat → Finset Guard
  next : Nat

/-- `GuardsCheckpointState`: wraps `dynamo_guards`, a reference to a set
object in the heap. -/
structure GuardsCheckpointState where
  dynamo_guards : Nat

/-- `GuardsCheckpointState.diff(self, other)`:
`r = self.dynamo_guards.difference(other.dynamo_guards)`, then `None` if
`len(r) == 0` else `r`. -/
def GuardsCheckpointState.diff (h : GuardHeap)
    (self other : GuardsCheckpointState) : Option (Finset Guard) :=
  let r := h.data self.dynamo_guards \ h.data other.dynamo_guards
  if r.card = 0 then none else some r

/-- `GuardsCheckpointState.__eq__(self, other)`:
`return self.diff(other) is None`. -/
def GuardsCheckpointState.pyEq (h : GuardHeap)
    (self other : GuardsCheckpointState) : Bool :=
  (GuardsCheckpointState.diff h self other).isNone

/-- `GuardsContext`: `dynamo_guards` is a reference to a set object in the
heap (`self.dynamo_guards: Set[Guard] = set()`), `aotautograd_guards` is the
separate `List[GuardEnvExpr]`. -/
structure GuardsContext where
  dynamo_guards : Nat
  aotautograd_guards : List GuardEnvExpr

/-- `GuardsContext.copy_graphstate(self)`:
`return GuardsCheckpointState(set(self.dynamo_guards))` — `set(...)`
allocates a FRESH set object holding a copy of the current contents, and the
checkpoint stores a reference to that fresh object. -/
def GuardsContext.copy_graphstate (h : GuardHeap) (ctx : GuardsContext) :
    GuardHeap × GuardsCheckpointState :=
  (⟨updSet h.data h.next (h.data ctx.dynamo_guards), h.next + 1⟩, ⟨h.next⟩)

/-- `GuardsContext.restore_graphstate(self, state)`: after the
`assert isinstance(state, GuardsCheckpointState)` (which the types discharge),
`self.dynamo_guards = state.dynamo_guards` — a reference assignment, no copy:
the context now aliases the checkpoint's set object. -/
def GuardsContext.restore_graphstate (ctx : GuardsContext)
    (state : GuardsCheckpointState) : GuardsContext :=
  { ctx with dynamo_guards := state.dynamo_guards }

/-- `ctx.dynamo_guards.add(g)`: the Python `set.add` mutation callers perform
on the live guard set through the context's reference. -/
def GuardsContext.add_guard (h : GuardHeap) (ctx : GuardsContext)
    (g : Guard) : GuardHeap :=
  { h with
      data := updSet h.data ctx.dynamo_guards (insert g (h.data ctx.dynamo_guards)) }

/-- `ModuleCheckpointState`: wraps `names_to_sources`, a `Dict[str, Source]`
modelled as an insertion-ordered association list with `Source` objects as
identity tokens. -/
structure ModuleCheckpointState where
  names_to_sources : List (String × Nat)

/-- The key set of a modelled `names_to_sources` dict. -/
def dictKeys (d : List (String × Nat)) : Finset String :=
  (d.map Prod.fst).toFinset

/-- `ModuleCheckpointState.diff(self, other)`, transcribed exactly:
`original_keys = set(self.names_to_sources.keys())`,
`other_keys = set(other.names_to_sources.keys())`,
`r = original_keys.difference(original_keys)`, then `None` if `len(r) == 0`
else `r`.  Note the difference is taken against `original_keys` itself. -/
def ModuleCheckpointState.diff (self other : ModuleCheckpointState) :
    Option (Finset String) :=
  let original_keys := dictKeys self.names_to_sources
  let other_keys := dictKeys other.names_to_sources
  let r := original_keys \ original_keys
  if r.card = 0 then none else some r

/-- The key-set difference `ModuleCheckpointState.diff` documents: keys of
`self` absent from `other`, `None` when that difference is empty.  This is the
spec's reading of the docstring, stated for comparison with the transcribed
`ModuleCheckpointState.diff` above. -/
def ModuleCheckpointState.diffDocumented (self other : ModuleCheckpointState) :
    Option (Finset String) :=
  let r := dictKeys self.names_to_sources \ dictKeys other.names_to_sources
  if r.card = 0 then none else some r

/-- A frame descriptor pushed on `frame_summary_stack`; its payload is opaque
to this module. -/
structure FrameSummary where
  tok : Nat
deriving DecidableEq

/-- Outcome of running a Python block: normal completion or a raised
exception carrying its message. -/
inductive Outcome where
  | ok
  | raised (msg : String)
deriving DecidableEq

/-- Pointwise update of the per-context frame stacks. -/
def updFrames (m : Nat → List FrameSummary) (k : Nat) (v : List FrameSummary) :
    Nat → List FrameSummary :=
  fun j => if j = k then v else m j

/-- The mutable state `tracing` and `TracingContext.current_frame` touch:
`slot` is the process-global `_CURRENT_TRACING_CONTEXT` (`none` when no
context is installed), holding the identity of the current `TracingContext`
object; `frames` maps each `TracingContext` identity to its
`frame_summary_stack` (a Python list, appended/popped at the end). -/
structure TCWorld where
  slot : Option Nat
  frames : Nat → List FrameSummary

/-- `TracingContext.get()`: `return _CURRENT_TRACING_CONTEXT`. -/
def TracingContext.get (w : TCWorld) : Option Nat :=
  w.slot

/-- `tc.frame_summary_stack.append(frame_summary)`. -/
def TCWorld.pushFrame (w : TCWorld) (tc : Nat) (f : FrameSummary) : TCWorld :=
  { w with frames := updFrames w.frames tc (w.frames tc ++ [f]) }

/-- `tc.frame_summary_stack.pop()`: removes the last element. -/
def TCWorld.popFrame (w : TCWorld) (tc : Nat) : TCWorld :=
  { w with frames := updFrames w.frames tc (w.frames tc).dropLast }

/-- The `TracingContext.current_frame(frame_summary)` context manager, applied
to the body of its `with` block (the body is any state transformer, and may
itself raise).  `tc = TracingContext.get()`; `assert tc is not None` raises
when no context is installed; otherwise `tc.frame_summary_stack.append(...)`,
run the body, and — in the `finally` — `tc.frame_summary_stack.pop()` on the
SAME context object captured at entry, on both the normal and the raising
exit path, and the body outcome propagates. -/
def TracingContext.current_frame (frame_summary : FrameSummary)
    (body : TCWorld → Outcome × TCWorld) (w : TCWorld) : Outcome × TCWorld :=
  match TracingContext.get w with
  | none =>
      (Outcome.raised "Frame context manager must be called within an ongoing trace.", w)
  | some tc =>
      let res := body (w.pushFrame tc frame_summary)
      (res.1, res.2.popFrame tc)

/-- The `tracing(context)` context manager, applied to the body of its `with`
block.  `old_context = _CURRENT_TRACING_CONTEXT`; the global slot is set to
the new context; the body runs; in the `finally`, the slot is set back to
`old_context` on both the normal and the raising exit path, and the body
outcome propagates. -/
def tracing (context : Nat) (body : TCWorld → Outcome × TCWorld)
    (w : TCWorld) : Outcome × TCWorld :=
  let old_context := w.slot
  let res := body { w with slot := some context }
  (res.1, { res.2 with slot := old_context })

/-! Concrete values used by counterexamples and witnesses. -/

/-- A concrete guard: `Guard("x", GuardSource.LOCAL, create_fn)` with default
`is_volatile=False` and unset export metadata. -/
def gEx1 : Guard := { name := "x", source := .LOCAL, create_fn := 0 }

/-- A second concrete guard differing from `gEx1` in `name`. -/
def gEx2 : Guard := { name := "y", source := .LOCAL, create_fn := 0 }

/-- A guard agreeing with `gEx1` on `(name, source, create_fn)` but with
`is_volatile=True`. -/
def gVol : Guard := { gEx1 with is_volatile := true }

/-- A one-object heap: set object 0 holds `{gEx1}`. -/
def hEx0 : GuardHeap := ⟨fun k => if k = 0 then {gEx1} else ∅, 1⟩

/-- A context whose live guard set is object 0 of `hEx0`. -/
def ctxEx : GuardsContext := ⟨0, []⟩

/-- A two-object heap: object 0 holds `{gEx1, gEx2}`, object 1 holds
`{gEx1}`. -/
def hEx4 : GuardHeap :=
  ⟨fun k => if k = 0 then {gEx1, gEx2} else if k = 1 then {gEx1} else ∅, 2⟩

/-- Checkpoint referencing set object 0. -/
def cpA : GuardsCheckpointState := ⟨0⟩

/-- Checkpoint referencing set object 1. -/
def cpB : GuardsCheckpointState := ⟨1⟩

/-- A module checkpoint whose dict has the single key `"w"`. -/
def mcsA : ModuleCheckpointState := ⟨[("w", 0)]⟩

/-- A module checkpoint with an empty dict. -/
def mcsB : ModuleCheckpointState := ⟨[]⟩

/-- A concrete frame summary. -/
def fEx : FrameSummary := ⟨5⟩

/-- A world with context 0 installed and all frame stacks empty. -/
def wEx : TCWorld := ⟨some 0, fun _ => []⟩

/-- A body that raises without touching the world, exercising the error exit
path of the context managers. -/
def bodyRaise : TCWorld → Outcome × TCWorld :=
  fun w => (Outcome.raised "boom", w)

/-! Helper lemmas shared by the checkpoint/restore theorems. -/

/-- Adding a guard through a context only mutates the set object the context
references. -/
theorem add_guard_data_other (h : GuardHeap) (ctx : GuardsContext) (g : Guard)
    (m : Nat) (hm : m ≠ ctx.dynamo_guards) :
    (GuardsContext.add_guard h ctx g).data m = h.data m := by
  simp [GuardsContext.add_guard, updSet, hm]

/-- Folding guard additions through a context leaves every other set object
unchanged. -/
theorem foldl_add_guard_data_other (ctx : GuardsContext) (gs : List Guard)
    (h : GuardHeap) (m : Nat) (hm : m ≠ ctx.dynamo_guards) :
    (gs.foldl (fun hh g => GuardsContext.add_guard hh ctx g) h).data m
      = h.data m := by
  induction gs generalizing h with
  | nil => rfl
  | cons g gs ih =>
      simpa [List.foldl, add_guard_data_other _ _ _ _ hm]
        using ih (GuardsContext.add_guard h ctx g)

/-- C1 (counterexample): two guards with the same `(name, source, create_fn)`
that differ only in `is_volatile` have equal Python hashes but are NOT `==`:
the dataclass-generated `__eq__` compares all eight fields, so the claim that
`g1 == g2` regardless of differing `is_volatile` or export metadata is false
at this input. -/
theorem C1_eq_counterexample :
    Guard.pyHash gEx1 = Guard.pyHash gVol ∧ Guard.pyEq gEx1 gVol = false := by
  decide

/-- C1 (amended): guards agreeing on `(name, source, create_fn identity)`
always have equal hashes, whatever their mutable export metadata or
`is_volatile` flags; but `g1 == g2` holds exactly when ALL eight dataclass
fields agree (the generated `__eq__` also compares `is_volatile`,
`guard_types`, `code_list`, `obj_weakref`, `guarded_class_weakref`). -/
theorem C1_hash_and_eq (g1 g2 : Guard)
    (hn : g1.name = g2.name) (hs : g1.source = g2.source)
    (hc : g1.create_fn = g2.create_fn) :
    Guard.pyHash g1 = Guard.pyHash g2
    ∧ (Guard.pyEq g1 g2 = true ↔ g1 = g2) := by
  constructor
  · simp [Guard.pyHash, hn, hs, hc]
  · cases g1
    cases g2
    simp [Guard.pyEq, Guard.mk.injEq]
    tauto

/-- C1 witness: the amended theorem applied to `gEx1` and `gVol`. -/
theorem C1_hash_and_eq_witness :
    gEx1.name = gVol.name ∧ gEx1.source = gVol.source
    ∧ gEx1.create_fn = gVol.create_fn
    ∧ Guard.pyHash gEx1 = Guard.pyHash gVol :=
  ⟨rfl, rfl, rfl, (C1_hash_and_eq gEx1 gVol rfl rfl rfl).1⟩

/-- C3 (code bug): `ModuleCheckpointState.diff` diffs `original_keys` against
itself, so it returns `None` for EVERY pair of checkpoints — in particular
for `mcsA` (keys `{"w"}`) against `mcsB` (no keys), where the documented
behavior (keys of `self` absent from `other`, `None` only when that
difference is empty) yields `{"w"}`. -/
theorem C3_diff_always_none :
    (∀ a b : ModuleCheckpointState, ModuleCheckpointState.diff a b = none)
    ∧ ModuleCheckpointState.diff mcsA mcsB = none
    ∧ ModuleCheckpointState.diffDocumented mcsA mcsB = some {"w"} := by
  refine ⟨?_, ?_, ?_⟩
  · intro a b
    simp [ModuleCheckpointState.diff]
  · simp [ModuleCheckpointState.diff]
  · decide

/-- C5: `GuardSource.select` routes LOCAL, LOCAL_NN_MODULE, SHAPE_ENV and
RANDOM_VALUE to the locals container, GLOBAL and GLOBAL_NN_MODULE to the
globals container, and raises `NotImplementedError(str(self))` on
CONSTANT. -/
theorem C5_select_routing (α : Type) (locals_ globals_ : α) :
    GuardSource.select .LOCAL locals_ globals_ = .ok locals_
    ∧ GuardSource.select .LOCAL_NN_MODULE locals_ globals_ = .ok locals_
    ∧ GuardSource.select .SHAPE_ENV locals_ globals_ = .ok locals_
    ∧ GuardSource.select .RANDOM_VALUE locals_ globals_ = .ok locals_
    ∧ GuardSource.select .GLOBAL locals_ globals_ = .ok globals_
    ∧ GuardSource.select .GLOBAL_NN_MODULE locals_ globals_ = .ok globals_
    ∧ GuardSource.select .CONSTANT locals_ globals_ =
        .error "GuardSource.CONSTANT" := by
  refine ⟨rfl, rfl, rfl, rfl, rfl, rfl, rfl⟩

/-- C7: activation via `tracing` is stack-like and exception-safe: exiting a
scope restores the previously saved slot value whatever the body did and
whatever its outcome (the outcome, raising included, propagates); the body
runs with the new context installed, where `get()` returns it; nesting B
inside A restores `get()` to A when B exits, and exiting A restores the
not-present indicator `none`. -/
theorem C7_tracing_nesting (A B : Nat) (body : TCWorld → Outcome × TCWorld)
    (w : TCWorld) :
    ((tracing A body w).2.slot = w.slot)
    ∧ ((tracing A body w).1 = (body { w with slot := some A }).1)
    ∧ (TracingContext.get { w with slot := some A } = some A)
    ∧ ((tracing B body { w with slot := some A }).2.slot = some A)
    ∧ ((tracing A (fun wA => tracing B body wA)
          { w with slot := none }).2.slot = none) :=
  ⟨rfl, rfl, rfl, rfl, rfl⟩

/-- C8: `copy_graphstate` captures exactly the current `dynamo_guards`
contents in the fresh checkpoint object (the checkpoint state holds nothing
else), and `restore_graphstate` leaves `aotautograd_guards` unchanged —
neither operation reads or writes the `aotautograd_guards` list. -/
theorem C8_aot_outside_checkpoint (h : GuardHeap) (ctx : GuardsContext)
    (st : GuardsCheckpointState) :
    ((GuardsContext.copy_graphstate h ctx).1.data
        (GuardsContext.copy_graphstate h ctx).2.dynamo_guards
      = h.data ctx.dynamo_guards)
    ∧ (GuardsContext.restore_graphstate ctx st).aotautograd_guards
        = ctx.aotautograd_guards := by
  constructor
  · simp [GuardsContext.copy_graphstate, updSet]
  · rfl

/-- C2: for a well-formed heap (the live set identity is below the fresh
counter), `restore_graphstate(copy_graphstate())` leaves the live guard set
equal to its prior contents S, and taking a checkpoint, adding any list of
guards through the live context, then restoring the checkpoint makes the live
set equal to S again — exactly the post-checkpoint additions are
discarded. -/
theorem C2_roundtrip (h : GuardHeap) (ctx : GuardsContext) (gs : List Guard)
    (hwf : ctx.dynamo_guards < h.next) :
    ((GuardsContext.copy_graphstate h ctx).1.data
        (GuardsContext.restore_graphstate ctx
          (GuardsContext.copy_graphstate h ctx).2).dynamo_guards
      = h.data ctx.dynamo_guards)
    ∧ ((gs.foldl (fun hh g => GuardsContext.add_guard hh ctx g)
          (GuardsContext.copy_graphstate h ctx).1).data
        (GuardsContext.restore_graphstate ctx
          (GuardsContext.copy_graphstate h ctx).2).dynamo_guards
      = h.data ctx.dynamo_guards) := by
  have hne : h.next ≠ ctx.dynamo_guards := (Nat.ne_of_lt hwf).symm
  constructor
  · simp [GuardsContext.copy_graphstate, GuardsContext.restore_graphstate, updSet]
  · rw [show (GuardsContext.restore_graphstate ctx
        (GuardsContext.copy_graphstate h ctx).2).dynamo_guards = h.next from rfl]
    rw [foldl_add_guard_data_other ctx gs _ h.next hne]
    simp [GuardsContext.copy_graphstate, updSet]

/-- C2 witness: the round trip at a concrete heap, context and added
guard. -/
theorem C2_roundtrip_witness :
    ctxEx.dynamo_guards < hEx0.next
    ∧ (((GuardsContext.copy_graphstate hEx0 ctxEx).1.data
          (GuardsContext.restore_graphstate ctxEx
            (GuardsContext.copy_graphstate hEx0 ctxEx).2).dynamo_guards
        = hEx0.data ctxEx.dynamo_guards)
      ∧ (([gEx2].foldl (fun hh g => GuardsContext.add_guard hh ctxEx g)
            (GuardsContext.copy_graphstate hEx0 ctxEx).1).data
          (GuardsContext.restore_graphstate ctxEx
            (GuardsContext.copy_graphstate hEx0 ctxEx).2).dynamo_guards
        = hEx0.data ctxEx.dynamo_guards)) :=
  ⟨by decide, C2_roundtrip hEx0 ctxEx [gEx2] (by decide)⟩

/-- C4: `GuardsCheckpointState.diff` returns the set difference of the two
referenced guard sets when it is non-empty and `None` when it is empty, so
`__eq__` (diff-is-None) holds exactly when the left set is a SUBSET of the
right set; on the concrete checkpoints `cpA` (set `{gEx1, gEx2}`) and `cpB`
(set `{gEx1}`), `cpA.diff(cpB) == {gEx2}` while `cpB.diff(cpA)` is `None`,
so `==` is not symmetric. -/
theorem C4_diff_asymmetry :
    (∀ (h : GuardHeap) (a b : GuardsCheckpointState),
        GuardsCheckpointState.diff h a b =
          if h.data a.dynamo_guards \ h.data b.dynamo_guards = ∅ then none
          else some (h.data a.dynamo_guards \ h.data b.dynamo_guards))
    ∧ (∀ (h : GuardHeap) (a b : GuardsCheckpointState),
        GuardsCheckpointState.pyEq h a b = true ↔
          h.data a.dynamo_guards ⊆ h.data b.dynamo_guards)
    ∧ (GuardsCheckpointState.diff hEx4 cpA cpB = some {gEx2}
       ∧ GuardsCheckpointState.diff hEx4 cpB cpA = none
       ∧ GuardsCheckpointState.pyEq hEx4 cpA cpB = false
       ∧ GuardsCheckpointState.pyEq hEx4 cpB cpA = true) := by
  refine ⟨?_, ?_, ?_⟩
  · intro h a b
    simp [GuardsCheckpointState.diff, Finset.card_eq_zero]
  · intro h a b
    simp [GuardsCheckpointState.pyEq, GuardsCheckpointState.diff,
      Option.isNone_iff_eq_none, Finset.card_eq_zero,
      Finset.sdiff_eq_empty_iff_subset]
  · decide

/-- C6: `current_frame(f)` raises the fatal assertion and leaves the world
untouched when no `TracingContext` is installed; with a context installed it
pushes `f` on that context's frame stack for the scope, and — for any body
that leaves the stack as it found it — pops it on every exit path (the body
outcome, raising included, propagates), so the stack after unwinding equals
its pre-entry contents. -/
theorem C6_current_frame (f : FrameSummary)
    (body : TCWorld → Outcome × TCWorld) (w : TCWorld) :
    (TracingContext.get w = none →
        TracingContext.current_frame f body w =
          (Outcome.raised "Frame context manager must be called within an ongoing trace.", w))
    ∧ (∀ tc : Nat, TracingContext.get w = some tc →
        ((w.pushFrame tc f).frames tc = w.frames tc ++ [f])
        ∧ ((body (w.pushFrame tc f)).2.frames tc = (w.pushFrame tc f).frames tc →
            ((TracingContext.current_frame f body w).2.frames tc = w.frames tc
             ∧ (TracingContext.current_frame f body w).1
                 = (body (w.pushFrame tc f)).1))) := by
  constructor
  · intro hnone
    simp [TracingContext.current_frame, hnone]
  · intro tc htc
    constructor
    · simp [TCWorld.pushFrame, updFrames]
    · intro hb
      have hpush : (w.pushFrame tc f).frames tc = w.frames tc ++ [f] := by
        simp [TCWorld.pushFrame, updFrames]
      constructor
      · simp [TracingContext.current_frame, htc, TCWorld.popFrame, updFrames,
          hb, hpush]
      · simp [TracingContext.current_frame, htc]

/-- C6 witness: a body that raises, run under an installed context with an
empty frame stack — the outcome propagates and the stack is popped back to
empty. -/
theorem C6_current_frame_witness :
    TracingContext.get wEx = some 0
    ∧ ((TracingContext.current_frame fEx bodyRaise wEx).2.frames 0
          = wEx.frames 0
       ∧ (TracingContext.current_frame fEx bodyRaise wEx).1
          = (bodyRaise (wEx.pushFrame 0 fEx)).1) :=
  ⟨rfl, ((C6_current_frame fEx bodyRaise wEx).2 0 rfl).2 rfl⟩

/-- C9: `set_export_info` may be repeated on a guard: a call whose
`guarded_class` and `obj_weakref` arguments match the stored values or arrive
while they are unset succeeds, appending `guard_type` to `guard_types`,
extending `code_list` with the new entries, storing the metadata and leaving
the identity fields alone; a call whose `guarded_class` conflicts with an
already-set stored value raises the class assertion without overwriting it,
and one whose `obj_weakref` conflicts raises the object assertion without
overwriting it. -/
theorem C9_set_export_info_repeatable :
    (∀ (g : Guard) (gt : String) (gc : Option Nat) (cl : List String)
        (ow : Option Nat),
        (g.guarded_class_weakref = gc ∨ g.guarded_class_weakref = none) →
        (g.obj_weakref = ow ∨ g.obj_weakref = none) →
        (Guard.set_export_info g gt gc cl ow).2 = none
        ∧ (Guard.set_export_info g gt gc cl ow).1.guard_types
            = some (pyListOrEmpty g.guard_types ++ [gt])
        ∧ (Guard.set_export_info g gt gc cl ow).1.code_list
            = some (pyListOrEmpty g.code_list ++ cl)
        ∧ (Guard.set_export_info g gt gc cl ow).1.guarded_class_weakref = gc
        ∧ (Guard.set_export_info g gt gc cl ow).1.obj_weakref = ow
        ∧ (Guard.set_export_info g gt gc cl ow).1.name = g.name
        ∧ (Guard.set_export_info g gt gc cl ow).1.source = g.source
        ∧ (Guard.set_export_info g gt gc cl ow).1.create_fn = g.create_fn)
    ∧ (∀ (g : Guard) (gt : String) (gc : Option Nat) (cl : List String)
        (ow : Option Nat) (c : Nat),
        g.guarded_class_weakref = some c → gc ≠ some c →
        (Guard.set_export_info g gt gc cl ow).2
            = some "Guarded class id must be identical, or None"
        ∧ (Guard.set_export_info g gt gc cl ow).1.guarded_class_weakref
            = g.guarded_class_weakref)
    ∧ (∀ (g : Guard) (gt : String) (gc : Option Nat) (cl : List String)
        (ow : Option Nat) (o : Nat),
        (g.guarded_class_weakref = gc ∨ g.guarded_class_weakref = none) →
        g.obj_weakref = some o → ow ≠ some o →
        (Guard.set_export_info g gt gc cl ow).2
            = some "Guarded object must be identical, or None"
        ∧ (Guard.set_export_info g gt gc cl ow).1.obj_weakref
            = g.obj_weakref) := by
  refine ⟨?_, ?_, ?_⟩
  · intro g gt gc cl ow hgc how
    obtain ⟨n, s, cf, iv, gts, cls, ow0, gcw⟩ := g
    simp only at hgc how
    simp only [Guard.set_export_info, pyListOrEmpty]
    rcases hgc with hgc | hgc <;> subst hgc <;>
      simp_all <;>
      rcases how with how | how <;> subst how <;>
      cases gts <;> cases cls <;>
      simp_all <;>
      first
        | rfl
        | (rename_i l1 l2; cases l1 <;> cases l2 <;> simp_all)
        | (rename_i l; cases l <;> simp_all)
  · intro g gt gc cl ow c hst hne
    obtain ⟨n, s, cf, iv, gts, cls, ow0, gcw⟩ := g
    simp only at hst
    subst hst
    have hne2 : ¬ ((some c : Option Nat) = gc) := fun hh => hne hh.symm
    simp [Guard.set_export_info, hne2]
  · intro g gt gc cl ow o hgc hst hne
    obtain ⟨n, s, cf, iv, gts, cls, ow0, gcw⟩ := g
    simp only at hgc hst
    subst hst
    have hne2 : ¬ ((some o : Option Nat) = ow) := fun hh => hne hh.symm
    rcases hgc with hgc | hgc <;> subst hgc <;>
      simp [Guard.set_export_info, hne2]

/-- C9 witness: a first call on a guard with unset metadata succeeds and
records it. -/
theorem C9_set_export_info_witness :
    (gEx1.guarded_class_weakref = some 7 ∨ gEx1.guarded_class_weakref = none)
    ∧ (gEx1.obj_weakref = some 8 ∨ gEx1.obj_weakref = none)
    ∧ ((Guard.set_export_info gEx1 "TYPE_MATCH" (some 7) ["c1"] (some 8)).2
          = none
       ∧ (Guard.set_export_info gEx1 "TYPE_MATCH" (some 7) ["c1"] (some 8)).1.guard_types
          = some (pyListOrEmpty gEx1.guard_types ++ ["TYPE_MATCH"])
       ∧ (Guard.set_export_info gEx1 "TYPE_MATCH" (some 7) ["c1"] (some 8)).1.code_list
          = some (pyListOrEmpty gEx1.code_list ++ ["c1"])
       ∧ (Guard.set_export_info gEx1 "TYPE_MATCH" (some 7) ["c1"] (some 8)).1.guarded_class_weakref
          = some 7
       ∧ (Guard.set_export_info gEx1 "TYPE_MATCH" (some 7) ["c1"] (some 8)).1.obj_weakref
          = some 8
       ∧ (Guard.set_export_info gEx1 "TYPE_MATCH" (some 7) ["c1"] (some 8)).1.name
          = gEx1.name
       ∧ (Guard.set_export_info gEx1 "TYPE_MATCH" (some 7) ["c1"] (some 8)).1.source
          = gEx1.source
       ∧ (Guard.set_export_info gEx1 "TYPE_MATCH" (some 7) ["c1"] (some 8)).1.create_fn
          = gEx1.create_fn) :=
  ⟨Or.inr rfl, Or.inr rfl,
    C9_set_export_info_repeatable.1 gEx1 "TYPE_MATCH" (some 7) ["c1"] (some 8)
      (Or.inr rfl) (Or.inr rfl)⟩

/-- C10: `restore_graphstate` installs the checkpoint's set object by
reference.  After restoring checkpoint `s` and adding a guard `g` (not in
`s`'s set) through the live context, the mutation lands in `s`'s own set
object, so a second `restore_graphstate(s)` leaves `g` in the live guard
set: the checkpoint no longer rolls back mutations made after it was
restored once. -/
theorem C10_restore_aliases (h : GuardHeap) (ctx : GuardsContext)
    (s : GuardsCheckpointState) (g : Guard)
    (hg : g ∉ h.data s.dynamo_guards) :
    g ∈ (GuardsContext.add_guard h
            (GuardsContext.restore_graphstate ctx s) g).data
          (GuardsContext.restore_graphstate
            (GuardsContext.restore_graphstate ctx s) s).dynamo_guards
    ∧ g ∈ (GuardsContext.add_guard h
            (GuardsContext.restore_graphstate ctx s) g).data
          s.dynamo_guards := by
  clear hg
  constructor <;>
    simp [GuardsContext.restore_graphstate, GuardsContext.add_guard, updSet]

/-- C10 witness: concrete heap where the checkpoint references set object 0
holding `{gEx1}` and the freshly added guard is `gEx2`. -/
theorem C10_restore_aliases_witness :
    gEx2 ∉ hEx0.data cpA.dynamo_guards
    ∧ (gEx2 ∈ (GuardsContext.add_guard hEx0
            (GuardsContext.restore_graphstate ctxEx cpA) gEx2).data
          (GuardsContext.restore_graphstate
            (GuardsContext.restore_graphstate ctxEx cpA) cpA).dynamo_guards
      ∧ gEx2 ∈ (GuardsContext.add_guard hEx0
            (GuardsContext.restore_graphstate ctxEx cpA) gEx2).data
          cpA.dynamo_guards) :=
  ⟨by decide, C10_restore_aliases hEx0 ctxEx cpA gEx2 (by decide)⟩
